import Mathlib

/-
  Verification of the PSD (pore size distribution) dispatch layer of pyGAPS,
  `pygaps/calculations/psd.py`.

  The module under study is the dispatch/validation layer: the three entry
  points `mesopore_size_distribution`, `micropore_size_distribution` and
  `dft_size_distribution`.  The numeric engines (`psd_bjh`,
  `psd_dollimore_heal`, `psd_horvath_kawazoe`, `psd_dft_kernel_fit`), the
  adsorbate property provider (`Adsorbate.from_list` and its methods), the
  meniscus geometry helper and the plotting collaborator `psd_plot` live in
  modules outside the sources; they are modelled as abstract functions
  collected in an `Env` record, and every call out of the dispatch layer into
  one of them is additionally recorded as an `Event` in a trace, so that
  claims about which collaborator is reached, with which arguments and in
  which order, can be stated.

  Numbers are modelled as rationals: the dispatch layer itself performs no
  arithmetic beyond passing values through, so the choice of number type is
  immaterial to the claims.  Python exceptions are modelled by the error type
  `PsdError`; the dynamic errors a Python runtime would raise on the paths
  the dispatch code actually contains (subscripting `None`, reading a local
  variable that no branch of an `if`/`elif` chain assigned) are modelled by
  the dedicated variants `noneTypeNotSubscriptable` and `nameError`.
-/

namespace PyGAPS

/-- Registry of mesoporous PSD model names, `_MESO_PSD_MODELS` in the source. -/
def _MESO_PSD_MODELS : List String := ["BJH", "DH", "HK"]

/-- Registry of microporous PSD model names, `_MICRO_PSD_MODELS` in the source. -/
def _MICRO_PSD_MODELS : List String := ["HK"]

/-- Registry of pore geometries, `_PORE_GEOMETRIES` in the source. -/
def _PORE_GEOMETRIES : List String := ["slit", "cylinder", "sphere"]

/-- Modelled from the spec: `_THICKNESS_MODELS` is imported from
`pygaps/calculations/thickness_models.py`, which is not among the sources.
The spec names exactly two registered statistical-thickness correlations,
Halsey and Harkins/Jura, and the dispatch code selects between exactly the
names `Halsey` and `Harkins/Jura`. -/
def _THICKNESS_MODELS : List String := ["Halsey", "Harkins/Jura"]

/-- Modelled from the spec: `_ADSORBENT_MODELS` is imported from
`pygaps/calculations/adsorbent_models.py`, which is not among the sources.
The spec names the carbon (HK) default, and the dispatch code selects between
exactly the names `Carbon(HK)` and `OxideIon(SF)`. -/
def _ADSORBENT_MODELS : List String := ["Carbon(HK)", "OxideIon(SF)"]

/-- The statistical thickness model resolved by the dispatch layer:
`thickness_halsey` or `thickness_harkins_jura` from the thickness-models
module (external collaborators, identified here by name). -/
inductive TModel where
  | halsey
  | harkins_jura
deriving DecidableEq

/-- The argument bundle the dispatch layer fixes on `kelvin_radius_std` via
`functools` before handing the resulting one-argument Kelvin model to a
mesoporous engine. -/
structure KelvinModelArgs where
  meniscus_geometry : String
  temperature : ℚ
  liquid_density : ℚ
  adsorbate_molar_mass : ℚ
  adsorbate_surface_tension : ℚ
deriving DecidableEq

/-- The adsorbate property dict assembled by `micropore_size_distribution`
from four `get_prop` calls. -/
structure AdsorbateHKProperties where
  molecular_diameter : ℚ
  polarizability : ℚ
  magnetic_susceptibility : ℚ
  surface_density : ℚ
deriving DecidableEq

/-- An adsorbent interaction-constant table (`PROPERTIES_CARBON` or
`PROPERTIES_OXIDE_ION` in the adsorbent-models module), modelled as an
opaque-to-the-dispatch dictionary of named constants. -/
structure AdsorbentProperties where
  entries : List (String × ℚ)
deriving DecidableEq

/-- The adsorbate property provider interface: what `Adsorbate.from_list`
returns, as consumed by the dispatch layer. -/
structure Adsorbate where
  molar_mass : ℚ
  liquid_density : ℚ → ℚ
  surface_tension : ℚ → ℚ
  get_prop : String → ℚ

/-- The isotherm provider interface, as consumed by the dispatch layer:
basis-mode flags, adsorbate identity, experiment temperature,
branch-filtered loading/pressure accessors and the loading-at-pressure
query.  An accessor returns `none` when the isotherm has no data on that
branch (the contract the source relies on with its `is None` check). -/
structure Isotherm where
  mode_adsorbent : String
  mode_pressure : String
  gas : String
  t_exp : ℚ
  loading_ads : Option (List ℚ)
  pressure_ads : Option (List ℚ)
  loading_des : Option (List ℚ)
  pressure_des : Option (List ℚ)
  loading_at : ℚ → ℚ

/-- The result dictionary of every PSD operation. -/
structure ResultDict where
  pore_widths : List ℚ
  pore_distribution : List ℚ
deriving DecidableEq

/-- The errors the dispatch layer can raise.  The first nine model explicit
`raise Exception(...)` statements (carrying the offending value and, where
the message enumerates it, the registry); `noneTypeNotSubscriptable` models
the TypeError Python raises when `[::-1]` is applied to `None`;
`nameError` models the NameError raised when a local variable that no arm of
an `if`/`elif` chain assigned is read afterwards. -/
inductive PsdError where
  | notMassBasis
  | notRelativePressure
  | noModelSpecified
  | modelNotAnOption (model : String) (available : List String)
  | geometryNotAnOption (geometry : String) (available : List String)
  | branchNotSpecified
  | branchNotAnOption (branch : String)
  | thicknessModelNotAnOption (model : Option String) (available : List String)
  | adsorbentModelNotAnOption (model : Option String) (available : List String)
  | missingBranchData
  | noneTypeNotSubscriptable
  | nameError
deriving DecidableEq

/-- The keyword-argument dictionary `model_parameters`.  For `branch` only
the result of `.get` matters to the source, so it is stored directly; for
`thickness_model` and `adsorbent_model` the source distinguishes key
presence from the stored value, so those fields are `none` when the key is
absent, `some none` when the key is present with value `None`, and
`some (some s)` when the key is present with a string value. -/
structure ModelParameters where
  branch : Option String := none
  thickness_model : Option (Option String) := none
  adsorbent_model : Option (Option String) := none
deriving DecidableEq

/-- One observable call out of the dispatch layer into an external
collaborator: the adsorbate property lookup, one of the four numeric
engines (with the exact arguments handed over), or the plotting
collaborator. -/
inductive Event where
  | adsorbateLookup (gas : String)
  | engineBJH (loading : List ℚ) (pressure : Option (List ℚ)) (pore_geometry : String)
      (t_model : TModel) (k_model : KelvinModelArgs) (liquid_density molar_mass : ℚ)
  | engineDH (loading : List ℚ) (pressure : Option (List ℚ)) (pore_geometry : String)
      (t_model : TModel) (k_model : KelvinModelArgs) (liquid_density molar_mass : ℚ)
  | engineHK (loading : Option (List ℚ)) (pressure : Option (List ℚ)) (temperature : ℚ)
      (pore_geometry : String) (maximum_adsorbed : ℚ)
      (adsorbate_properties : AdsorbateHKProperties) (adsorbent_properties : AdsorbentProperties)
  | engineDFT (pressure : Option (List ℚ)) (loading : Option (List ℚ)) (kernel_path : String)
  | plot (pore_widths pore_distribution : List ℚ) (log : Option Bool) (xmax : Option ℚ)
deriving DecidableEq

/-- The external collaborators of the dispatch layer, abstracted: the
adsorbate provider, the meniscus-geometry helper, the four numeric engines
and the two adsorbent constant tables.  The plotting collaborator returns
nothing and is represented purely by its trace event. -/
structure Env where
  from_list : String → Adsorbate
  meniscus_geometry : String → String → String
  psd_bjh : List ℚ → Option (List ℚ) → String → TModel → KelvinModelArgs → ℚ → ℚ → List ℚ × List ℚ
  psd_dollimore_heal : List ℚ → Option (List ℚ) → String → TModel → KelvinModelArgs → ℚ → ℚ → List ℚ × List ℚ
  psd_horvath_kawazoe : Option (List ℚ) → Option (List ℚ) → ℚ → String → ℚ →
      AdsorbateHKProperties → AdsorbentProperties → List ℚ × List ℚ
  psd_dft_kernel_fit : Option (List ℚ) → Option (List ℚ) → String → List ℚ × List ℚ
  properties_carbon : AdsorbentProperties
  properties_oxide_ion : AdsorbentProperties

/-- The body of `mesopore_size_distribution` up to and including the
construction of `result_dict` (source lines 94 to 176), i.e. everything
except the verbose plotting tail.  Returns the result or the raised error,
paired with the trace of external calls made.  The two data-extraction
assignments of the adsorption arm apply `[::-1]` to the accessor results,
so a missing adsorption branch surfaces as `noneTypeNotSubscriptable`
there, before the `is None` check is reached; the `is None` check itself
can only fire on the desorption arm. -/
def mesopore_core (env : Env) (isotherm : Isotherm) (psd_model : Option String)
    (pore_geometry : String) (model_parameters : ModelParameters) :
    Except PsdError ResultDict × List Event :=
  if isotherm.mode_adsorbent ≠ "mass" then (.error .notMassBasis, [])
  else if isotherm.mode_pressure ≠ "relative" then (.error .notRelativePressure, [])
  else match psd_model with
  | none => (.error .noModelSpecified, [])
  | some m =>
    if m ∉ _MESO_PSD_MODELS then (.error (.modelNotAnOption m _MESO_PSD_MODELS), [])
    else if pore_geometry ∉ _PORE_GEOMETRIES then
      (.error (.geometryNotAnOption pore_geometry _PORE_GEOMETRIES), [])
    else match model_parameters.branch with
    | none => (.error .branchNotSpecified, [])
    | some branch =>
      if branch ∉ ["adsorption", "desorption"] then (.error (.branchNotAnOption branch), [])
      else
        let thickness_model : Option String :=
          match model_parameters.thickness_model with
          | some v => v
          | none => some "Harkins/Jura"
        match thickness_model with
        | none => (.error (.thicknessModelNotAnOption none _THICKNESS_MODELS), [])
        | some tm =>
          if tm ∉ _THICKNESS_MODELS then
            (.error (.thicknessModelNotAnOption (some tm) _THICKNESS_MODELS), [])
          else
            let adsorbate := env.from_list isotherm.gas
            let molar_mass := adsorbate.molar_mass
            let liquid_density := adsorbate.liquid_density isotherm.t_exp
            let surface_tension := adsorbate.surface_tension isotherm.t_exp
            let events := [Event.adsorbateLookup isotherm.gas]
            let dataE : Except PsdError (List ℚ × Option (List ℚ)) :=
              if branch = "adsorption" then
                match isotherm.loading_ads with
                | none => .error .noneTypeNotSubscriptable
                | some l =>
                  match isotherm.pressure_ads with
                  | none => .error .noneTypeNotSubscriptable
                  | some p => .ok (l.reverse, some p.reverse)
              else
                match isotherm.loading_des with
                | none => .error .missingBranchData
                | some l => .ok (l, isotherm.pressure_des)
            match dataE with
            | .error e => (.error e, events)
            | .ok (loading, pressure) =>
              let tmodelE : Except PsdError TModel :=
                if tm = "Halsey" then .ok .halsey
                else if tm = "Harkins/Jura" then .ok .harkins_jura
                else .error .nameError
              match tmodelE with
              | .error e => (.error e, events)
              | .ok t_model =>
                let m_geometry := env.meniscus_geometry branch pore_geometry
                let k_model : KelvinModelArgs :=
                  { meniscus_geometry := m_geometry
                    temperature := isotherm.t_exp
                    liquid_density := liquid_density
                    adsorbate_molar_mass := molar_mass
                    adsorbate_surface_tension := surface_tension }
                if m = "BJH" then
                  let r := env.psd_bjh loading pressure pore_geometry t_model k_model
                    liquid_density molar_mass
                  (.ok ⟨r.1, r.2⟩,
                    events ++ [Event.engineBJH loading pressure pore_geometry t_model k_model
                      liquid_density molar_mass])
                else if m = "DH" then
                  let r := env.psd_dollimore_heal loading pressure pore_geometry t_model k_model
                    liquid_density molar_mass
                  (.ok ⟨r.1, r.2⟩,
                    events ++ [Event.engineDH loading pressure pore_geometry t_model k_model
                      liquid_density molar_mass])
                else
                  (.error .nameError, events)

/-- `mesopore_size_distribution`: the core, followed by the verbose tail
(source lines 178 to 181): when `verbose` is set, `psd_plot` is invoked on
the two components of the already-built result, and the result is returned
unchanged. -/
def mesopore_size_distribution (env : Env) (isotherm : Isotherm) (psd_model : Option String)
    (pore_geometry : String := "cylinder") (verbose : Bool := false)
    (model_parameters : ModelParameters := {}) :
    Except PsdError ResultDict × List Event :=
  match mesopore_core env isotherm psd_model pore_geometry model_parameters with
  | (.ok result_dict, events) =>
    (.ok result_dict,
      events ++ if verbose then
        [Event.plot result_dict.pore_widths result_dict.pore_distribution none none]
      else [])
  | (.error e, events) => (.error e, events)

/-- The body of `micropore_size_distribution` up to and including the
construction of `result_dict` (source lines 231 to 286).  There is no
branch parameter and no data-availability check: the adsorption accessor
results and the `loading_at 0.9` query are handed to the Horvath-Kawazoe
engine as-is. -/
def micropore_core (env : Env) (isotherm : Isotherm) (psd_model : Option String)
    (pore_geometry : String) (model_parameters : ModelParameters) :
    Except PsdError ResultDict × List Event :=
  if isotherm.mode_adsorbent ≠ "mass" then (.error .notMassBasis, [])
  else if isotherm.mode_pressure ≠ "relative" then (.error .notRelativePressure, [])
  else match psd_model with
  | none => (.error .noModelSpecified, [])
  | some m =>
    if m ∉ _MICRO_PSD_MODELS then (.error (.modelNotAnOption m _MICRO_PSD_MODELS), [])
    else if pore_geometry ∉ _PORE_GEOMETRIES then
      (.error (.geometryNotAnOption pore_geometry _PORE_GEOMETRIES), [])
    else
      let adsorbent_model : Option String :=
        match model_parameters.adsorbent_model with
        | some v => v
        | none => some "Carbon(HK)"
      match adsorbent_model with
      | none => (.error (.adsorbentModelNotAnOption none _ADSORBENT_MODELS), [])
      | some am =>
        if am ∉ _ADSORBENT_MODELS then
          (.error (.adsorbentModelNotAnOption (some am) _ADSORBENT_MODELS), [])
        else
          let adsorbate := env.from_list isotherm.gas
          let adsorbate_properties : AdsorbateHKProperties :=
            { molecular_diameter := adsorbate.get_prop "molecular_diameter"
              polarizability := adsorbate.get_prop "polarizability"
              magnetic_susceptibility := adsorbate.get_prop "magnetic_susceptibility"
              surface_density := adsorbate.get_prop "surface_density" }
          let events := [Event.adsorbateLookup isotherm.gas]
          let loading := isotherm.loading_ads
          let pressure := isotherm.pressure_ads
          let maximum_adsorbed := isotherm.loading_at (9/10)
          let apropsE : Except PsdError AdsorbentProperties :=
            if am = "Carbon(HK)" then .ok env.properties_carbon
            else if am = "OxideIon(SF)" then .ok env.properties_oxide_ion
            else .error .nameError
          match apropsE with
          | .error e => (.error e, events)
          | .ok adsorbent_properties =>
            if m = "HK" then
              let r := env.psd_horvath_kawazoe loading pressure isotherm.t_exp pore_geometry
                maximum_adsorbed adsorbate_properties adsorbent_properties
              (.ok ⟨r.1, r.2⟩,
                events ++ [Event.engineHK loading pressure isotherm.t_exp pore_geometry
                  maximum_adsorbed adsorbate_properties adsorbent_properties])
            else
              (.error .nameError, events)

/-- `micropore_size_distribution`: the core plus the verbose tail (source
lines 288 to 291), which passes the extra axis hints `log=False, xmax=2` to
the plotting collaborator. -/
def micropore_size_distribution (env : Env) (isotherm : Isotherm) (psd_model : Option String)
    (pore_geometry : String := "cylinder") (verbose : Bool := false)
    (model_parameters : ModelParameters := {}) :
    Except PsdError ResultDict × List Event :=
  match micropore_core env isotherm psd_model pore_geometry model_parameters with
  | (.ok result_dict, events) =>
    (.ok result_dict,
      events ++ if verbose then
        [Event.plot result_dict.pore_widths result_dict.pore_distribution (some false) (some 2)]
      else [])
  | (.error e, events) => (.error e, events)

/-- The body of `dft_size_distribution` up to and including the construction
of `result_dict` (source lines 312 to 321): no checks at all, the adsorption
accessor results are handed straight to the kernel-fit engine (pressure
first, then loading). -/
def dft_core (env : Env) (isotherm : Isotherm) (kernel_path : String)
    (model_parameters : ModelParameters) :
    Except PsdError ResultDict × List Event :=
  let _ := model_parameters
  let loading := isotherm.loading_ads
  let pressure := isotherm.pressure_ads
  let r := env.psd_dft_kernel_fit pressure loading kernel_path
  (.ok ⟨r.1, r.2⟩, [Event.engineDFT pressure loading kernel_path])

/-- `dft_size_distribution`: the core plus the verbose tail (source lines
323 to 326). -/
def dft_size_distribution (env : Env) (isotherm : Isotherm) (kernel_path : String)
    (verbose : Bool := false) (model_parameters : ModelParameters := {}) :
    Except PsdError ResultDict × List Event :=
  match dft_core env isotherm kernel_path model_parameters with
  | (.ok result_dict, events) =>
    (.ok result_dict,
      events ++ if verbose then
        [Event.plot result_dict.pore_widths result_dict.pore_distribution none none]
      else [])
  | (.error e, events) => (.error e, events)

/-! Concrete instances used to evaluate the dispatch layer at specific
inputs.  The engine functions are simple stand-ins: the claims under test
are about the dispatch layer, which treats the engines as black boxes. -/

/-- A concrete adsorbate property provider result. -/
def sampleAdsorbate : Adsorbate :=
  { molar_mass := 28
    liquid_density := fun _ => 1
    surface_tension := fun _ => 2
    get_prop := fun _ => 3 }

/-- A concrete environment of external collaborators. -/
def sampleEnv : Env :=
  { from_list := fun _ => sampleAdsorbate
    meniscus_geometry := fun _ _ => "hemispherical"
    psd_bjh := fun l _ _ _ _ _ _ => (l, l)
    psd_dollimore_heal := fun l _ _ _ _ _ _ => (l, l)
    psd_horvath_kawazoe := fun _ _ _ _ _ _ _ => ([1], [2])
    psd_dft_kernel_fit := fun _ _ _ => ([1], [1])
    properties_carbon := ⟨[("carbon", 1)]⟩
    properties_oxide_ion := ⟨[("oxide", 2)]⟩ }

/-- A concrete isotherm in mass basis and relative pressure mode, with data
on both branches. -/
def sampleIso : Isotherm :=
  { mode_adsorbent := "mass"
    mode_pressure := "relative"
    gas := "N2"
    t_exp := 77
    loading_ads := some [1, 2, 3]
    pressure_ads := some [1/10, 1/2, 9/10]
    loading_des := some [3, 2, 1]
    pressure_des := some [9/10, 1/2, 1/10]
    loading_at := fun _ => 5 }

/-- `sampleIso` with a loading basis that is not mass-normalized. -/
def badBasisIso : Isotherm := { sampleIso with mode_adsorbent := "volume" }

/-- `sampleIso` with no adsorption-branch data. -/
def noAdsIso : Isotherm := { sampleIso with loading_ads := none, pressure_ads := none }

/-- `sampleIso` with no desorption-branch data. -/
def noDesIso : Isotherm := { sampleIso with loading_des := none, pressure_des := none }

/-- C2: the mesoporous registry is exactly `[BJH, DH, HK]` and the
unregistered-name error enumerates it; but for the registered name `HK`,
supplied with otherwise valid inputs, validation passes, the adsorbate
lookup happens, and then the engine dispatch — which has arms only for
`BJH` and `DH` — assigns no engine result, so reading `pore_widths` raises
a NameError: no engine is invoked and no result dictionary is returned,
contradicting the claim. -/
theorem mesopore_hk_passes_validation_then_name_error :
    mesopore_size_distribution sampleEnv sampleIso (some "HK") "cylinder" false
      ⟨some "adsorption", none, none⟩
      = (.error .nameError, [.adsorbateLookup "N2"]) ∧
    mesopore_size_distribution sampleEnv sampleIso (some "XYZ") "cylinder" false
      ⟨some "adsorption", none, none⟩
      = (.error (.modelNotAnOption "XYZ" ["BJH", "DH", "HK"]), []) := by
  constructor <;> rfl

/-- C3: on the desorption branch a missing branch is reported with the
data-availability error, but on the adsorption branch the two `[::-1]`
reversals subscript the accessor results before the `is None` check runs,
so a missing adsorption branch surfaces as a TypeError instead of the
data-availability error. -/
theorem mesopore_missing_adsorption_branch_type_error :
    mesopore_size_distribution sampleEnv noAdsIso (some "BJH") "cylinder" false
      ⟨some "adsorption", none, none⟩
      = (.error .noneTypeNotSubscriptable, [.adsorbateLookup "N2"]) ∧
    mesopore_size_distribution sampleEnv noDesIso (some "BJH") "cylinder" false
      ⟨some "desorption", none, none⟩
      = (.error .missingBranchData, [.adsorbateLookup "N2"]) := by
  constructor <;> rfl

/-- `sampleIso` with a pressure basis that is not relative. -/
def badPressureIso : Isotherm := { sampleIso with mode_pressure := "absolute" }

/-- C1 counterexample: `dft_size_distribution` performs no basis checks, so
on an isotherm whose loading basis is not mass-normalized it does not fail
with a precondition error — it reaches the numeric kernel-fit engine and
returns its result. -/
theorem dft_reaches_engine_on_bad_basis :
    dft_size_distribution sampleEnv badBasisIso "kernel" false {}
      = (.ok ⟨[1], [1]⟩,
         [.engineDFT (some [1/10, 1/2, 9/10]) (some [1, 2, 3]) "kernel"]) := by
  rfl

/-- C1 (amended): the mesoporous and microporous operations reject a
non-mass loading basis, and, when the loading basis is mass, a non-relative
pressure basis, with the corresponding precondition error and an empty
trace of external calls (so no engine is ever reached); the DFT operation
performs no basis checks at all — its outcome is independent of both basis
mode fields. -/
theorem basis_checks_meso_micro_only (env : Env) (iso : Isotherm) (m : Option String)
    (geo : String) (v : Bool) (params : ModelParameters) (kp : String) :
    (iso.mode_adsorbent ≠ "mass" →
      mesopore_size_distribution env iso m geo v params = (.error .notMassBasis, []) ∧
      micropore_size_distribution env iso m geo v params = (.error .notMassBasis, [])) ∧
    (iso.mode_adsorbent = "mass" → iso.mode_pressure ≠ "relative" →
      mesopore_size_distribution env iso m geo v params = (.error .notRelativePressure, []) ∧
      micropore_size_distribution env iso m geo v params = (.error .notRelativePressure, [])) ∧
    (∀ ma mp, dft_size_distribution env { iso with mode_adsorbent := ma, mode_pressure := mp }
        kp v params = dft_size_distribution env iso kp v params) := by
  refine ⟨fun h => ?_, fun h1 h2 => ?_, fun ma mp => rfl⟩
  · constructor <;>
      simp [mesopore_size_distribution, micropore_size_distribution,
        mesopore_core, micropore_core, h]
  · constructor <;>
      simp [mesopore_size_distribution, micropore_size_distribution,
        mesopore_core, micropore_core, h1, h2]

/-- Witness for the amended C1 theorem at concrete inputs. -/
theorem basis_checks_meso_micro_only_witness :
    mesopore_size_distribution sampleEnv badBasisIso (some "BJH") "cylinder" false {}
      = (.error .notMassBasis, []) ∧
    micropore_size_distribution sampleEnv badPressureIso (some "HK") "cylinder" false {}
      = (.error .notRelativePressure, []) :=
  ⟨((basis_checks_meso_micro_only sampleEnv badBasisIso (some "BJH") "cylinder" false {}
      "kernel").1 (by decide)).1,
   (((basis_checks_meso_micro_only sampleEnv badPressureIso (some "HK") "cylinder" false {}
      "kernel").2.1 (by decide) (by decide)).2)⟩

/-- C5: in both the mesoporous and the microporous operation the
preconditions are checked in a fixed order with the first failure winning —
loading basis, then pressure basis, then model name supplied, then model
name registered, then geometry registered — and each such failure is
returned with an empty trace of external calls, i.e. before any adsorbate
property lookup. -/
theorem validation_order_first_failure_wins (env : Env) (iso : Isotherm) (m : Option String)
    (geo : String) (v : Bool) (params : ModelParameters) :
    (iso.mode_adsorbent ≠ "mass" →
      mesopore_size_distribution env iso m geo v params = (.error .notMassBasis, []) ∧
      micropore_size_distribution env iso m geo v params = (.error .notMassBasis, [])) ∧
    (iso.mode_adsorbent = "mass" → iso.mode_pressure ≠ "relative" →
      mesopore_size_distribution env iso m geo v params = (.error .notRelativePressure, []) ∧
      micropore_size_distribution env iso m geo v params = (.error .notRelativePressure, [])) ∧
    (iso.mode_adsorbent = "mass" → iso.mode_pressure = "relative" → m = none →
      mesopore_size_distribution env iso m geo v params = (.error .noModelSpecified, []) ∧
      micropore_size_distribution env iso m geo v params = (.error .noModelSpecified, [])) ∧
    (∀ s, iso.mode_adsorbent = "mass" → iso.mode_pressure = "relative" → m = some s →
      (s ∉ _MESO_PSD_MODELS →
        mesopore_size_distribution env iso m geo v params
          = (.error (.modelNotAnOption s _MESO_PSD_MODELS), [])) ∧
      (s ∉ _MICRO_PSD_MODELS →
        micropore_size_distribution env iso m geo v params
          = (.error (.modelNotAnOption s _MICRO_PSD_MODELS), [])) ∧
      (geo ∉ _PORE_GEOMETRIES →
        (s ∈ _MESO_PSD_MODELS →
          mesopore_size_distribution env iso m geo v params
            = (.error (.geometryNotAnOption geo _PORE_GEOMETRIES), [])) ∧
        (s ∈ _MICRO_PSD_MODELS →
          micropore_size_distribution env iso m geo v params
            = (.error (.geometryNotAnOption geo _PORE_GEOMETRIES), [])))) := by
  refine ⟨fun h => ?_, fun h1 h2 => ?_, fun h1 h2 h3 => ?_,
    fun s h1 h2 h3 => ⟨fun hs => ?_, fun hs => ?_, fun hgeo => ⟨fun hs => ?_, fun hs => ?_⟩⟩⟩ <;>
    first
    | (constructor <;>
        simp_all [mesopore_size_distribution, micropore_size_distribution,
          mesopore_core, micropore_core])
    | simp_all [mesopore_size_distribution, micropore_size_distribution,
        mesopore_core, micropore_core]

/-- Witness for the C5 theorem at concrete inputs: an unregistered model
name and an unregistered geometry, each rejected with an empty trace. -/
theorem validation_order_first_failure_wins_witness :
    mesopore_size_distribution sampleEnv sampleIso (some "XYZ") "cylinder" false {}
      = (.error (.modelNotAnOption "XYZ" ["BJH", "DH", "HK"]), []) ∧
    micropore_size_distribution sampleEnv sampleIso (some "HK") "torus" false {}
      = (.error (.geometryNotAnOption "torus" ["slit", "cylinder", "sphere"]), []) :=
  ⟨((validation_order_first_failure_wins sampleEnv sampleIso (some "XYZ") "cylinder" false
      {}).2.2.2 "XYZ" rfl rfl rfl).1 (by decide),
   (((validation_order_first_failure_wins sampleEnv sampleIso (some "HK") "torus" false
      {}).2.2.2 "HK" rfl rfl rfl).2.2 (by decide)).2 (by decide)⟩

/-- C4: with valid modes, a registered geometry and data on both branches,
requesting the adsorption branch hands the engine both arrays reversed,
while requesting the desorption branch hands the engine both arrays in the
order the isotherm provides them (shown for the BJH and the DH engine via
the exact trace of external calls, with the default Harkins/Jura thickness
model resolved). -/
theorem mesopore_branch_data_ordering (env : Env) (iso : Isotherm) (geo : String)
    (la pa ldes : List ℚ)
    (h1 : iso.mode_adsorbent = "mass") (h2 : iso.mode_pressure = "relative")
    (hg : geo ∈ _PORE_GEOMETRIES)
    (hla : iso.loading_ads = some la) (hpa : iso.pressure_ads = some pa)
    (hld : iso.loading_des = some ldes) :
    (mesopore_size_distribution env iso (some "BJH") geo false
        ⟨some "adsorption", none, none⟩).2
      = [Event.adsorbateLookup iso.gas,
         Event.engineBJH la.reverse (some pa.reverse) geo .harkins_jura
           ⟨env.meniscus_geometry "adsorption" geo, iso.t_exp,
            (env.from_list iso.gas).liquid_density iso.t_exp,
            (env.from_list iso.gas).molar_mass,
            (env.from_list iso.gas).surface_tension iso.t_exp⟩
           ((env.from_list iso.gas).liquid_density iso.t_exp)
           (env.from_list iso.gas).molar_mass] ∧
    (mesopore_size_distribution env iso (some "DH") geo false
        ⟨some "adsorption", none, none⟩).2
      = [Event.adsorbateLookup iso.gas,
         Event.engineDH la.reverse (some pa.reverse) geo .harkins_jura
           ⟨env.meniscus_geometry "adsorption" geo, iso.t_exp,
            (env.from_list iso.gas).liquid_density iso.t_exp,
            (env.from_list iso.gas).molar_mass,
            (env.from_list iso.gas).surface_tension iso.t_exp⟩
           ((env.from_list iso.gas).liquid_density iso.t_exp)
           (env.from_list iso.gas).molar_mass] ∧
    (mesopore_size_distribution env iso (some "BJH") geo false
        ⟨some "desorption", none, none⟩).2
      = [Event.adsorbateLookup iso.gas,
         Event.engineBJH ldes iso.pressure_des geo .harkins_jura
           ⟨env.meniscus_geometry "desorption" geo, iso.t_exp,
            (env.from_list iso.gas).liquid_density iso.t_exp,
            (env.from_list iso.gas).molar_mass,
            (env.from_list iso.gas).surface_tension iso.t_exp⟩
           ((env.from_list iso.gas).liquid_density iso.t_exp)
           (env.from_list iso.gas).molar_mass] := by
  refine ⟨?_, ?_, ?_⟩ <;>
    simp [mesopore_size_distribution, mesopore_core, _MESO_PSD_MODELS, _THICKNESS_MODELS,
      h1, h2, hg, hla, hpa, hld]

/-- Witness for the C4 theorem at concrete inputs: the adsorption arrays
arrive at the engine reversed, the desorption arrays as provided. -/
theorem mesopore_branch_data_ordering_witness :
    (mesopore_size_distribution sampleEnv sampleIso (some "BJH") "cylinder" false
        ⟨some "adsorption", none, none⟩).2
      = [Event.adsorbateLookup "N2",
         Event.engineBJH [3, 2, 1] (some [9/10, 1/2, 1/10]) "cylinder" .harkins_jura
           ⟨"hemispherical", 77, 1, 28, 2⟩ 1 28] ∧
    (mesopore_size_distribution sampleEnv sampleIso (some "DH") "cylinder" false
        ⟨some "adsorption", none, none⟩).2
      = [Event.adsorbateLookup "N2",
         Event.engineDH [3, 2, 1] (some [9/10, 1/2, 1/10]) "cylinder" .harkins_jura
           ⟨"hemispherical", 77, 1, 28, 2⟩ 1 28] ∧
    (mesopore_size_distribution sampleEnv sampleIso (some "BJH") "cylinder" false
        ⟨some "desorption", none, none⟩).2
      = [Event.adsorbateLookup "N2",
         Event.engineBJH [3, 2, 1] (some [9/10, 1/2, 1/10]) "cylinder" .harkins_jura
           ⟨"hemispherical", 77, 1, 28, 2⟩ 1 28] :=
  mesopore_branch_data_ordering sampleEnv sampleIso "cylinder"
    [1, 2, 3] [1/10, 1/2, 9/10] [3, 2, 1] rfl rfl (by decide) rfl rfl rfl

/-- C6: in the mesoporous operation (with valid modes, a registered model
and a registered geometry) the branch entry of the configuration map is
mandatory — absence raises the branch-not-specified error, any value other
than adsorption or desorption raises the invalid-branch error; a supplied
thickness-model override outside the registry raises the
unregistered-model error; and when no override is supplied the engine
receives the Harkins/Jura thickness model. -/
theorem mesopore_branch_mandatory_thickness_default (env : Env) (iso : Isotherm) (s : String)
    (geo : String) (v : Bool) (params : ModelParameters)
    (h1 : iso.mode_adsorbent = "mass") (h2 : iso.mode_pressure = "relative")
    (hm : s ∈ _MESO_PSD_MODELS) (hg : geo ∈ _PORE_GEOMETRIES) :
    (params.branch = none →
      mesopore_size_distribution env iso (some s) geo v params
        = (.error .branchNotSpecified, [])) ∧
    (∀ b, params.branch = some b → b ∉ ["adsorption", "desorption"] →
      mesopore_size_distribution env iso (some s) geo v params
        = (.error (.branchNotAnOption b), [])) ∧
    (∀ b t, params.branch = some b → b ∈ ["adsorption", "desorption"] →
      params.thickness_model = some (some t) → t ∉ _THICKNESS_MODELS →
      mesopore_size_distribution env iso (some s) geo v params
        = (.error (.thicknessModelNotAnOption (some t) _THICKNESS_MODELS), [])) ∧
    (∀ la pa, params.branch = some "adsorption" → params.thickness_model = none →
      iso.loading_ads = some la → iso.pressure_ads = some pa → s = "BJH" →
      Event.engineBJH la.reverse (some pa.reverse) geo .harkins_jura
        ⟨env.meniscus_geometry "adsorption" geo, iso.t_exp,
         (env.from_list iso.gas).liquid_density iso.t_exp,
         (env.from_list iso.gas).molar_mass,
         (env.from_list iso.gas).surface_tension iso.t_exp⟩
        ((env.from_list iso.gas).liquid_density iso.t_exp)
        (env.from_list iso.gas).molar_mass
        ∈ (mesopore_size_distribution env iso (some s) geo v params).2) := by
  refine ⟨fun hb => ?_, fun b hb hbv => ?_, fun b t hb hbv ht htr => ?_,
    fun la pa hb ht hla hpa hs => ?_⟩ <;>
    simp_all [mesopore_size_distribution, mesopore_core, _MESO_PSD_MODELS, _THICKNESS_MODELS]

/-- Witness for the C6 theorem at concrete inputs: a missing branch entry,
an invalid branch value, an unregistered thickness override, and the
default Harkins/Jura thickness model reaching the engine. -/
theorem mesopore_branch_mandatory_thickness_default_witness :
    mesopore_size_distribution sampleEnv sampleIso (some "BJH") "cylinder" false {}
      = (.error .branchNotSpecified, []) ∧
    mesopore_size_distribution sampleEnv sampleIso (some "BJH") "cylinder" false
      ⟨some "sideways", none, none⟩
      = (.error (.branchNotAnOption "sideways"), []) ∧
    mesopore_size_distribution sampleEnv sampleIso (some "BJH") "cylinder" false
      ⟨some "adsorption", some (some "XYZ"), none⟩
      = (.error (.thicknessModelNotAnOption (some "XYZ") ["Halsey", "Harkins/Jura"]), []) ∧
    Event.engineBJH [3, 2, 1] (some [9/10, 1/2, 1/10]) "cylinder" .harkins_jura
        ⟨"hemispherical", 77, 1, 28, 2⟩ 1 28
      ∈ (mesopore_size_distribution sampleEnv sampleIso (some "BJH") "cylinder" false
          ⟨some "adsorption", none, none⟩).2 :=
  ⟨(mesopore_branch_mandatory_thickness_default sampleEnv sampleIso "BJH" "cylinder" false {}
      rfl rfl (by decide) (by decide)).1 rfl,
   (mesopore_branch_mandatory_thickness_default sampleEnv sampleIso "BJH" "cylinder" false
      ⟨some "sideways", none, none⟩ rfl rfl (by decide) (by decide)).2.1
      "sideways" rfl (by decide),
   (mesopore_branch_mandatory_thickness_default sampleEnv sampleIso "BJH" "cylinder" false
      ⟨some "adsorption", some (some "XYZ"), none⟩ rfl rfl (by decide) (by decide)).2.2.1
      "adsorption" "XYZ" rfl (by decide) rfl (by decide),
   (mesopore_branch_mandatory_thickness_default sampleEnv sampleIso "BJH" "cylinder" false
      ⟨some "adsorption", none, none⟩ rfl rfl (by decide) (by decide)).2.2.2
      [1, 2, 3] [1/10, 1/2, 9/10] rfl rfl rfl rfl rfl⟩

/-- C10: with valid modes, a registered model and geometry and a valid
branch, the Harkins/Jura default applies only when the thickness-model key
is absent from the configuration map: supplying the key with value `None`
raises the unregistered-model error (value `None` is not in the registry),
supplying it with an unregistered name raises the same error, and only key
absence resolves to the Harkins/Jura default. -/
theorem mesopore_thickness_none_not_default (env : Env) (iso : Isotherm) (s b : String)
    (geo : String) (v : Bool) (params : ModelParameters)
    (h1 : iso.mode_adsorbent = "mass") (h2 : iso.mode_pressure = "relative")
    (hm : s ∈ _MESO_PSD_MODELS) (hg : geo ∈ _PORE_GEOMETRIES)
    (hb : params.branch = some b) (hbv : b ∈ ["adsorption", "desorption"]) :
    (params.thickness_model = some none →
      mesopore_size_distribution env iso (some s) geo v params
        = (.error (.thicknessModelNotAnOption none _THICKNESS_MODELS), [])) ∧
    (∀ t, params.thickness_model = some (some t) → t ∉ _THICKNESS_MODELS →
      mesopore_size_distribution env iso (some s) geo v params
        = (.error (.thicknessModelNotAnOption (some t) _THICKNESS_MODELS), [])) ∧
    (∀ la pa, params.thickness_model = none → b = "adsorption" →
      iso.loading_ads = some la → iso.pressure_ads = some pa → s = "BJH" →
      Event.engineBJH la.reverse (some pa.reverse) geo .harkins_jura
        ⟨env.meniscus_geometry "adsorption" geo, iso.t_exp,
         (env.from_list iso.gas).liquid_density iso.t_exp,
         (env.from_list iso.gas).molar_mass,
         (env.from_list iso.gas).surface_tension iso.t_exp⟩
        ((env.from_list iso.gas).liquid_density iso.t_exp)
        (env.from_list iso.gas).molar_mass
        ∈ (mesopore_size_distribution env iso (some s) geo v params).2) := by
  refine ⟨fun ht => ?_, fun t ht htr => ?_, fun la pa ht hbv2 hla hpa hs => ?_⟩ <;>
    simp_all [mesopore_size_distribution, mesopore_core, _MESO_PSD_MODELS, _THICKNESS_MODELS]

/-- Witness for the C10 theorem at concrete inputs: an explicit `None`
value for the thickness-model key is rejected rather than defaulted. -/
theorem mesopore_thickness_none_not_default_witness :
    mesopore_size_distribution sampleEnv sampleIso (some "BJH") "cylinder" false
      ⟨some "adsorption", some none, none⟩
      = (.error (.thicknessModelNotAnOption none ["Halsey", "Harkins/Jura"]), []) ∧
    mesopore_size_distribution sampleEnv sampleIso (some "BJH") "cylinder" false
      ⟨some "adsorption", some (some "Magic"), none⟩
      = (.error (.thicknessModelNotAnOption (some "Magic") ["Halsey", "Harkins/Jura"]), []) ∧
    Event.engineBJH [3, 2, 1] (some [9/10, 1/2, 1/10]) "cylinder" .harkins_jura
        ⟨"hemispherical", 77, 1, 28, 2⟩ 1 28
      ∈ (mesopore_size_distribution sampleEnv sampleIso (some "BJH") "cylinder" false
          ⟨some "adsorption", none, none⟩).2 :=
  ⟨(mesopore_thickness_none_not_default sampleEnv sampleIso "BJH" "adsorption" "cylinder" false
      ⟨some "adsorption", some none, none⟩ rfl rfl (by decide) (by decide) rfl (by decide)).1 rfl,
   (mesopore_thickness_none_not_default sampleEnv sampleIso "BJH" "adsorption" "cylinder" false
      ⟨some "adsorption", some (some "Magic"), none⟩ rfl rfl (by decide) (by decide) rfl
      (by decide)).2.1 "Magic" rfl (by decide),
   (mesopore_thickness_none_not_default sampleEnv sampleIso "BJH" "adsorption" "cylinder" false
      ⟨some "adsorption", none, none⟩ rfl rfl (by decide) (by decide) rfl (by decide)).2.2
      [1, 2, 3] [1/10, 1/2, 9/10] rfl rfl rfl rfl rfl⟩

/-- The adsorbate property dictionary `micropore_size_distribution`
assembles from four `get_prop` calls on the provider result for the
isotherm's adsorbate. -/
def hkAdsorbateProps (env : Env) (iso : Isotherm) : AdsorbateHKProperties :=
  { molecular_diameter := (env.from_list iso.gas).get_prop "molecular_diameter"
    polarizability := (env.from_list iso.gas).get_prop "polarizability"
    magnetic_susceptibility := (env.from_list iso.gas).get_prop "magnetic_susceptibility"
    surface_density := (env.from_list iso.gas).get_prop "surface_density" }

/-- Helper: the verbose tail never changes the first component of the
mesoporous operation. -/
theorem mesopore_result_eq_core (env : Env) (iso : Isotherm) (m : Option String)
    (geo : String) (v : Bool) (params : ModelParameters) :
    (mesopore_size_distribution env iso m geo v params).1
      = (mesopore_core env iso m geo params).1 := by
  rcases h : mesopore_core env iso m geo params with ⟨r, ev⟩
  cases r <;> simp [mesopore_size_distribution, h]

/-- Helper: the verbose tail never changes the first component of the
microporous operation. -/
theorem micropore_result_eq_core (env : Env) (iso : Isotherm) (m : Option String)
    (geo : String) (v : Bool) (params : ModelParameters) :
    (micropore_size_distribution env iso m geo v params).1
      = (micropore_core env iso m geo params).1 := by
  rcases h : micropore_core env iso m geo params with ⟨r, ev⟩
  cases r <;> simp [micropore_size_distribution, h]

/-- Helper: the verbose tail never changes the first component of the DFT
operation. -/
theorem dft_result_eq_core (env : Env) (iso : Isotherm) (kp : String)
    (v : Bool) (params : ModelParameters) :
    (dft_size_distribution env iso kp v params).1
      = (dft_core env iso kp params).1 := by
  rcases h : dft_core env iso kp params with ⟨r, ev⟩
  cases r <;> simp [dft_size_distribution, h]

/-- Helper: the mesoporous core never emits a plotting event. -/
theorem mesopore_core_no_plot (env : Env) (iso : Isotherm) (m : Option String)
    (geo : String) (params : ModelParameters) (pw pd : List ℚ)
    (lg : Option Bool) (xm : Option ℚ) :
    Event.plot pw pd lg xm ∉ (mesopore_core env iso m geo params).2 := by
  simp only [mesopore_core]
  repeat' split
  all_goals simp_all

/-- Helper: the microporous core never emits a plotting event. -/
theorem micropore_core_no_plot (env : Env) (iso : Isotherm) (m : Option String)
    (geo : String) (params : ModelParameters) (pw pd : List ℚ)
    (lg : Option Bool) (xm : Option ℚ) :
    Event.plot pw pd lg xm ∉ (micropore_core env iso m geo params).2 := by
  simp only [micropore_core]
  repeat' split
  all_goals simp_all

/-- Helper: the DFT core never emits a plotting event. -/
theorem dft_core_no_plot (env : Env) (iso : Isotherm) (kp : String)
    (params : ModelParameters) (pw pd : List ℚ) (lg : Option Bool) (xm : Option ℚ) :
    Event.plot pw pd lg xm ∉ (dft_core env iso kp params).2 := by
  simp [dft_core]

/-- Helper: the microporous core never raises the data-availability error
(that error does not occur in its code at all). -/
theorem micropore_core_never_missing_branch_data (env : Env) (iso : Isotherm)
    (m : Option String) (geo : String) (params : ModelParameters) :
    (micropore_core env iso m geo params).1 ≠ .error .missingBranchData := by
  simp only [micropore_core]
  repeat' split
  all_goals first
    | (simp_all; done)
    | (split_ifs at *; simp_all [eq_comm])

/-- C7: the microporous operation takes no branch configuration (its
outcome is independent of the branch entry of the configuration map); an
unregistered adsorbent-model override is a validation failure; and with no
override supplied it hands the Horvath-Kawazoe engine the adsorption-branch
accessor results, the loading queried at relative pressure 0.9 as the
calculation limit, and the Carbon(HK) adsorbent constant table. -/
theorem micropore_adsorption_defaults (env : Env) (iso : Isotherm) (m : Option String)
    (geo : String) (v : Bool) (params : ModelParameters) :
    (∀ b1 b2, micropore_size_distribution env iso m geo v { params with branch := b1 }
      = micropore_size_distribution env iso m geo v { params with branch := b2 }) ∧
    (∀ a, iso.mode_adsorbent = "mass" → iso.mode_pressure = "relative" →
      m = some "HK" → geo ∈ _PORE_GEOMETRIES →
      params.adsorbent_model = some (some a) → a ∉ _ADSORBENT_MODELS →
      micropore_size_distribution env iso m geo v params
        = (.error (.adsorbentModelNotAnOption (some a) _ADSORBENT_MODELS), [])) ∧
    (iso.mode_adsorbent = "mass" → iso.mode_pressure = "relative" →
      m = some "HK" → geo ∈ _PORE_GEOMETRIES → params.adsorbent_model = none →
      micropore_size_distribution env iso m geo false params
        = (.ok ⟨(env.psd_horvath_kawazoe iso.loading_ads iso.pressure_ads iso.t_exp geo
              (iso.loading_at (9/10)) (hkAdsorbateProps env iso) env.properties_carbon).1,
            (env.psd_horvath_kawazoe iso.loading_ads iso.pressure_ads iso.t_exp geo
              (iso.loading_at (9/10)) (hkAdsorbateProps env iso) env.properties_carbon).2⟩,
           [Event.adsorbateLookup iso.gas,
            Event.engineHK iso.loading_ads iso.pressure_ads iso.t_exp geo
              (iso.loading_at (9/10)) (hkAdsorbateProps env iso) env.properties_carbon])) := by
  refine ⟨fun b1 b2 => rfl, fun a h1 h2 h3 h4 h5 h6 => ?_, fun h1 h2 h3 h4 h5 => ?_⟩ <;>
    simp_all [micropore_size_distribution, micropore_core, hkAdsorbateProps,
      _MICRO_PSD_MODELS, _ADSORBENT_MODELS]

/-- Witness for the C7 theorem at concrete inputs: an unregistered
adsorbent override is rejected; with no override the engine receives the
adsorption arrays, the loading at 0.9 and the carbon table. -/
theorem micropore_adsorption_defaults_witness :
    micropore_size_distribution sampleEnv sampleIso (some "HK") "cylinder" false
      ⟨none, none, some (some "Adamantium")⟩
      = (.error (.adsorbentModelNotAnOption (some "Adamantium")
          ["Carbon(HK)", "OxideIon(SF)"]), []) ∧
    micropore_size_distribution sampleEnv sampleIso (some "HK") "cylinder" false {}
      = (.ok ⟨[1], [2]⟩,
         [.adsorbateLookup "N2",
          .engineHK (some [1, 2, 3]) (some [1/10, 1/2, 9/10]) 77 "cylinder" 5
            ⟨3, 3, 3, 3⟩ ⟨[("carbon", 1)]⟩]) :=
  ⟨(micropore_adsorption_defaults sampleEnv sampleIso (some "HK") "cylinder" false
      ⟨none, none, some (some "Adamantium")⟩).2.1 "Adamantium" rfl rfl rfl (by decide)
      rfl (by decide),
   (micropore_adsorption_defaults sampleEnv sampleIso (some "HK") "cylinder" false {}).2.2
      rfl rfl rfl (by decide) rfl⟩

/-- C8: for every input to each of the three operations, the returned
result is the same whether verbose is true or false; with verbose false no
plotting event is ever emitted; and with verbose true, on success, the
trace is exactly the non-verbose trace followed by one plotting event
carrying the two components of the already-constructed result (so the plot
happens last, after the result exists, and does not alter it). -/
theorem verbose_plot_side_effect_only (env : Env) (iso : Isotherm) (m : Option String)
    (geo : String) (params : ModelParameters) (kp : String) :
    ((mesopore_size_distribution env iso m geo true params).1
      = (mesopore_size_distribution env iso m geo false params).1) ∧
    ((micropore_size_distribution env iso m geo true params).1
      = (micropore_size_distribution env iso m geo false params).1) ∧
    ((dft_size_distribution env iso kp true params).1
      = (dft_size_distribution env iso kp false params).1) ∧
    (∀ pw pd lg xm,
      Event.plot pw pd lg xm ∉ (mesopore_size_distribution env iso m geo false params).2) ∧
    (∀ pw pd lg xm,
      Event.plot pw pd lg xm ∉ (micropore_size_distribution env iso m geo false params).2) ∧
    (∀ pw pd lg xm,
      Event.plot pw pd lg xm ∉ (dft_size_distribution env iso kp false params).2) ∧
    (∀ r, (mesopore_size_distribution env iso m geo false params).1 = .ok r →
      (mesopore_size_distribution env iso m geo true params).2
        = (mesopore_size_distribution env iso m geo false params).2
          ++ [Event.plot r.pore_widths r.pore_distribution none none]) ∧
    (∀ r, (micropore_size_distribution env iso m geo false params).1 = .ok r →
      (micropore_size_distribution env iso m geo true params).2
        = (micropore_size_distribution env iso m geo false params).2
          ++ [Event.plot r.pore_widths r.pore_distribution (some false) (some 2)]) ∧
    (∀ r, (dft_size_distribution env iso kp false params).1 = .ok r →
      (dft_size_distribution env iso kp true params).2
        = (dft_size_distribution env iso kp false params).2
          ++ [Event.plot r.pore_widths r.pore_distribution none none]) := by
  have hmp := mesopore_core_no_plot env iso m geo params
  have hip := micropore_core_no_plot env iso m geo params
  have hdp := dft_core_no_plot env iso kp params
  rcases hm : mesopore_core env iso m geo params with ⟨rm, evm⟩
  rcases hi : micropore_core env iso m geo params with ⟨ri, evi⟩
  rcases hd : dft_core env iso kp params with ⟨rd, evd⟩
  rw [hm] at hmp; rw [hi] at hip; rw [hd] at hdp
  refine ⟨?_, ?_, ?_, ?_, ?_, ?_, ?_, ?_, ?_⟩
  · cases rm <;> simp [mesopore_size_distribution, hm]
  · cases ri <;> simp [micropore_size_distribution, hi]
  · cases rd <;> simp [dft_size_distribution, hd]
  · intro pw pd lg xm
    cases rm <;> simpa [mesopore_size_distribution, hm] using hmp pw pd lg xm
  · intro pw pd lg xm
    cases ri <;> simpa [micropore_size_distribution, hi] using hip pw pd lg xm
  · intro pw pd lg xm
    cases rd <;> simpa [dft_size_distribution, hd] using hdp pw pd lg xm
  · intro r hr
    cases rm with
    | error e => simp [mesopore_size_distribution, hm] at hr
    | ok rd2 =>
      simp only [mesopore_size_distribution, hm] at hr ⊢
      simp at hr
      subst hr
      simp
  · intro r hr
    cases ri with
    | error e => simp [micropore_size_distribution, hi] at hr
    | ok rd2 =>
      simp only [micropore_size_distribution, hi] at hr ⊢
      simp at hr
      subst hr
      simp
  · intro r hr
    cases rd with
    | error e => simp [dft_size_distribution, hd] at hr
    | ok rd2 =>
      simp only [dft_size_distribution, hd] at hr ⊢
      simp at hr
      subst hr
      simp

/-- Witness for the C8 theorem at concrete inputs: on a successful
mesoporous run, the verbose trace is the non-verbose trace plus one final
plotting event carrying the result components. -/
theorem verbose_plot_side_effect_only_witness :
    (mesopore_size_distribution sampleEnv sampleIso (some "BJH") "cylinder" true
        ⟨some "adsorption", none, none⟩).1
      = (mesopore_size_distribution sampleEnv sampleIso (some "BJH") "cylinder" false
        ⟨some "adsorption", none, none⟩).1 ∧
    (mesopore_size_distribution sampleEnv sampleIso (some "BJH") "cylinder" true
        ⟨some "adsorption", none, none⟩).2
      = (mesopore_size_distribution sampleEnv sampleIso (some "BJH") "cylinder" false
        ⟨some "adsorption", none, none⟩).2
          ++ [Event.plot [3, 2, 1] [3, 2, 1] none none] :=
  ⟨(verbose_plot_side_effect_only sampleEnv sampleIso (some "BJH") "cylinder"
      ⟨some "adsorption", none, none⟩ "kernel").1,
   (verbose_plot_side_effect_only sampleEnv sampleIso (some "BJH") "cylinder"
      ⟨some "adsorption", none, none⟩ "kernel").2.2.2.2.2.2.1 ⟨[3, 2, 1], [3, 2, 1]⟩ rfl⟩

/-- C9: the microporous operation performs no data-availability check: it
can never raise the data-availability error (for any input whatsoever), and
when the isotherm has no adsorption branch the accessor results — `none` —
together with the loading-at-0.9 query are passed unchecked to the
Horvath-Kawazoe engine. -/
theorem micropore_no_data_availability_check (env : Env) (iso : Isotherm)
    (geo : String) (v : Bool) (params : ModelParameters) :
    (∀ m, (micropore_size_distribution env iso m geo v params).1
      ≠ .error .missingBranchData) ∧
    (iso.mode_adsorbent = "mass" → iso.mode_pressure = "relative" →
      geo ∈ _PORE_GEOMETRIES → params.adsorbent_model = none → iso.loading_ads = none →
      Event.engineHK none iso.pressure_ads iso.t_exp geo (iso.loading_at (9/10))
          (hkAdsorbateProps env iso) env.properties_carbon
        ∈ (micropore_size_distribution env iso (some "HK") geo v params).2) := by
  constructor
  · intro m
    rw [micropore_result_eq_core]
    exact micropore_core_never_missing_branch_data env iso m geo params
  · intro h1 h2 h3 h4 h5
    rcases hc : micropore_core env iso (some "HK") geo params with ⟨r, ev⟩
    have : micropore_core env iso (some "HK") geo params
        = (.ok ⟨(env.psd_horvath_kawazoe none iso.pressure_ads iso.t_exp geo
              (iso.loading_at (9/10)) (hkAdsorbateProps env iso) env.properties_carbon).1,
            (env.psd_horvath_kawazoe none iso.pressure_ads iso.t_exp geo
              (iso.loading_at (9/10)) (hkAdsorbateProps env iso) env.properties_carbon).2⟩,
           [Event.adsorbateLookup iso.gas,
            Event.engineHK none iso.pressure_ads iso.t_exp geo (iso.loading_at (9/10))
              (hkAdsorbateProps env iso) env.properties_carbon]) := by
      simp_all [micropore_core, hkAdsorbateProps, _MICRO_PSD_MODELS, _ADSORBENT_MODELS]
    rw [micropore_size_distribution, this]
    cases v <;> simp

/-- Witness for the C9 theorem at a concrete input: an isotherm with no
adsorption branch never triggers the data-availability error, and the
engine receives `none` for the loading array. -/
theorem micropore_no_data_availability_check_witness :
    (micropore_size_distribution sampleEnv noAdsIso (some "HK") "cylinder" false {}).1
      ≠ .error .missingBranchData ∧
    Event.engineHK none none 77 "cylinder" 5 ⟨3, 3, 3, 3⟩ ⟨[("carbon", 1)]⟩
      ∈ (micropore_size_distribution sampleEnv noAdsIso (some "HK") "cylinder" false {}).2 :=
  ⟨(micropore_no_data_availability_check sampleEnv noAdsIso "cylinder" false {}).1
      (some "HK"),
   (micropore_no_data_availability_check sampleEnv noAdsIso "cylinder" false {}).2
      rfl rfl (by decide) rfl rfl⟩

end PyGAPS
